import Mathlib

/-!
Shallow embedding of `src/server.js` of the SaviHomes/mssql-bridge
repository: a single-file Express HTTP-to-MSSQL bridge.

The JavaScript handlers are embedded as pure Lean functions.  Process-wide
mutable state (the module-level `pool` variable) is passed explicitly as an
`Option Pool` and returned updated.  The external `mssql` driver is
abstracted as a `Driver` record giving the outcome of `sql.connect`,
`request.query` and `pool.close`.  Asynchronous exceptions become `Except`
results; the events a handler performs on the driver are collected in a
list so that "the pool is never touched" style claims are statable.
-/

namespace MssqlBridge

/-- A JavaScript/JSON value as produced by `JSON.parse` on a request body
and consumed by `res.json`.  `undefined` is represented externally as
`Option Json` (`none` = undefined), since JSON itself has no undefined. -/
inductive Json where
  | null : Json
  | bool (b : Bool) : Json
  | num (n : Int) : Json
  | str (s : String) : Json
  | arr (elems : List Json) : Json
  | obj (fields : List (String × Json)) : Json

/-- Structural decidable equality for `Json` (the nested inductive defeats
automatic derivation). -/
def Json.decEq : (a b : Json) → Decidable (a = b)
  | Json.null, Json.null => isTrue rfl
  | Json.bool a, Json.bool b =>
    match inferInstanceAs (Decidable (a = b)) with
    | isTrue h => isTrue (by rw [h])
    | isFalse h => isFalse (by intro hc; cases hc; exact h rfl)
  | Json.num a, Json.num b =>
    match inferInstanceAs (Decidable (a = b)) with
    | isTrue h => isTrue (by rw [h])
    | isFalse h => isFalse (by intro hc; cases hc; exact h rfl)
  | Json.str a, Json.str b =>
    match inferInstanceAs (Decidable (a = b)) with
    | isTrue h => isTrue (by rw [h])
    | isFalse h => isFalse (by intro hc; cases hc; exact h rfl)
  | Json.arr [], Json.arr [] => isTrue rfl
  | Json.arr (x :: xs), Json.arr (y :: ys) =>
    match Json.decEq x y, Json.decEq (Json.arr xs) (Json.arr ys) with
    | isTrue h1, isTrue h2 => isTrue (by injection h2 with h4; rw [h1, h4])
    | isFalse h1, _ => isFalse (by intro hc; cases hc; exact h1 rfl)
    | _, isFalse h2 => isFalse (by intro hc; cases hc; exact h2 rfl)
  | Json.obj [], Json.obj [] => isTrue rfl
  | Json.obj ((k, v) :: xs), Json.obj ((k2, v2) :: ys) =>
    match inferInstanceAs (Decidable (k = k2)), Json.decEq v v2, Json.decEq (Json.obj xs) (Json.obj ys) with
    | isTrue h1, isTrue h2, isTrue h3 => isTrue (by injection h3 with h4; rw [h1, h2, h4])
    | isFalse h1, _, _ => isFalse (by intro hc; cases hc; exact h1 rfl)
    | _, isFalse h2, _ => isFalse (by intro hc; cases hc; exact h2 rfl)
    | _, _, isFalse h3 => isFalse (by intro hc; cases hc; exact h3 rfl)
  | Json.null, Json.bool _ => isFalse (by intro h; cases h)
  | Json.null, Json.num _ => isFalse (by intro h; cases h)
  | Json.null, Json.str _ => isFalse (by intro h; cases h)
  | Json.null, Json.arr _ => isFalse (by intro h; cases h)
  | Json.null, Json.obj _ => isFalse (by intro h; cases h)
  | Json.bool _, Json.null => isFalse (by intro h; cases h)
  | Json.bool _, Json.num _ => isFalse (by intro h; cases h)
  | Json.bool _, Json.str _ => isFalse (by intro h; cases h)
  | Json.bool _, Json.arr _ => isFalse (by intro h; cases h)
  | Json.bool _, Json.obj _ => isFalse (by intro h; cases h)
  | Json.num _, Json.null => isFalse (by intro h; cases h)
  | Json.num _, Json.bool _ => isFalse (by intro h; cases h)
  | Json.num _, Json.str _ => isFalse (by intro h; cases h)
  | Json.num _, Json.arr _ => isFalse (by intro h; cases h)
  | Json.num _, Json.obj _ => isFalse (by intro h; cases h)
  | Json.str _, Json.null => isFalse (by intro h; cases h)
  | Json.str _, Json.bool _ => isFalse (by intro h; cases h)
  | Json.str _, Json.num _ => isFalse (by intro h; cases h)
  | Json.str _, Json.arr _ => isFalse (by intro h; cases h)
  | Json.str _, Json.obj _ => isFalse (by intro h; cases h)
  | Json.arr _, Json.null => isFalse (by intro h; cases h)
  | Json.arr _, Json.bool _ => isFalse (by intro h; cases h)
  | Json.arr _, Json.num _ => isFalse (by intro h; cases h)
  | Json.arr _, Json.str _ => isFalse (by intro h; cases h)
  | Json.arr _, Json.obj _ => isFalse (by intro h; cases h)
  | Json.arr [], Json.arr (_ :: _) => isFalse (by intro h; cases h)
  | Json.arr (_ :: _), Json.arr [] => isFalse (by intro h; cases h)
  | Json.obj _, Json.null => isFalse (by intro h; cases h)
  | Json.obj _, Json.bool _ => isFalse (by intro h; cases h)
  | Json.obj _, Json.num _ => isFalse (by intro h; cases h)
  | Json.obj _, Json.str _ => isFalse (by intro h; cases h)
  | Json.obj _, Json.arr _ => isFalse (by intro h; cases h)
  | Json.obj [], Json.obj (_ :: _) => isFalse (by intro h; cases h)
  | Json.obj (_ :: _), Json.obj [] => isFalse (by intro h; cases h)

instance : DecidableEq Json := Json.decEq

/-- A connection pool handle as returned by `sql.connect(sqlConfig)`.
`connected` models the driver-maintained `pool.connected` flag; `id`
distinguishes distinct pool objects across reconnections. -/
structure Pool where
  id : Nat
  connected : Bool
deriving Repr, DecidableEq

/-- A JavaScript exception (`Error`): carries `error.message` and
`error.stack`, the two fields the handler's catch block reads. -/
structure JsError where
  message : String
  stack : String
deriving Repr, DecidableEq

/-- A row of a recordset: a record mapping column names to values. -/
def Row : Type := List (String × Json)

/-- Abstraction of the `mssql` driver: the outcome of `sql.connect`
(line 38), of `request.query` given the pool, the bound parameters and the
query text (lines 85-93), and of `pool.close` (line 113). -/
structure Driver where
  connect : Except JsError Pool
  execQuery : Pool → String → List (String × Json) → Except JsError (List Row)
  close : Pool → Except JsError Unit

/-- Environment configuration read from `process.env`; only `NODE_ENV`
influences response bodies (line 104). -/
structure Env where
  nodeEnv : Option String
deriving Repr, DecidableEq

/-- An HTTP response: the status set via `res.status` (200 when defaulted)
and the JSON body passed to `res.json`. -/
structure Response where
  status : Nat
  body : Json
deriving DecidableEq

/-- Observable driver-touching actions a handler performs, recorded so
that frame conditions ("the pool is never touched") can be stated. -/
inductive Event where
  | connectAttempt : Event
  | queryExec (p : Pool) (query : String) (params : List (String × Json)) : Event
  | close (p : Pool) : Event
deriving DecidableEq

/-- Property access `j.k` on a JavaScript value: only objects carry the
handler-relevant fields; on every other value the access yields
`undefined` (`none`). -/
def getField : Json → String → Option Json
  | Json.obj fields, k => fields.lookup k
  | _, _ => none

/-- JavaScript truthiness test used by `if (!query)` on line 71:
`undefined`, `null`, `false`, `0` and `""` are falsy; every other value
(including all objects and arrays) is truthy. -/
def falsy : Option Json → Bool
  | none => true
  | some Json.null => true
  | some (Json.bool b) => !b
  | some (Json.num n) => n == 0
  | some (Json.str s) => s == ""
  | some (Json.arr _) => false
  | some (Json.obj _) => false

/-- The `TypeError` raised by `const { query, parameters = {} } = req.body`
when `req.body` is `undefined` or `null`. -/
def destructureError : JsError :=
  ⟨"Cannot destructure property 'query' of 'req.body' as it is undefined or null.",
   "TypeError: destructure req.body"⟩

/-- The `TypeError` raised by `query.substring(0, 100)` on line 82 when the
truthy `query` value is not a string. -/
def substringError : JsError :=
  ⟨"query.substring is not a function", "TypeError: query.substring"⟩

/-- The `TypeError` raised by `Object.entries(parameters)` on line 88 when
`parameters` is `null`. -/
def entriesError : JsError :=
  ⟨"Cannot convert undefined or null to object", "TypeError: Object.entries"⟩

/-- Destructuring `const { query, parameters = {} } = req.body` (line 69):
throws on `undefined`/`null`, otherwise reads the two properties, with
`parameters` defaulting to the empty object when the property is absent. -/
def destructureBody : Option Json → Except JsError (Option Json × Json)
  | none => Except.error destructureError
  | some Json.null => Except.error destructureError
  | some j => Except.ok (getField j "query", (getField j "parameters").getD (Json.obj []))

/-- JavaScript `Object.entries` on a parsed JSON value: throws on `null`,
returns the own enumerable string-keyed entries otherwise (fields of an
object, indexed elements of an array, indexed characters of a string,
nothing for numbers and booleans). -/
def jsEntries : Json → Except JsError (List (String × Json))
  | Json.null => Except.error entriesError
  | Json.obj fields => Except.ok fields
  | Json.arr elems => Except.ok (elems.enum.map fun e => (toString e.1, e.2))
  | Json.str s => Except.ok (s.toList.enum.map fun e => (toString e.1, Json.str (String.singleton e.2)))
  | Json.num _ => Except.ok []
  | Json.bool _ => Except.ok []

/-- Embedding of `initializePool` (lines 36-45): `pool = await
sql.connect(sqlConfig)` assigns the module-level `pool` only when the
connect succeeds; a failure is logged and rethrown, leaving `pool`
unchanged.  Returns (thrown-or-returned pool, new pool state, events). -/
def initializePool (drv : Driver) (pool : Option Pool) :
    Except JsError Pool × Option Pool × List Event :=
  match drv.connect with
  | Except.ok p => (Except.ok p, some p, [Event.connectAttempt])
  | Except.error e => (Except.error e, pool, [Event.connectAttempt])

/-- The lazy pool check of lines 78-80: `if (!pool || !pool.connected)
{ pool = await initializePool(); }`.  Reuses a connected pool unchanged,
otherwise calls `initializePool`. -/
def ensurePool (drv : Driver) (pool : Option Pool) :
    Except JsError Pool × Option Pool × List Event :=
  match pool with
  | some p => if p.connected then (Except.ok p, some p, []) else initializePool drv (some p)
  | none => initializePool drv none

/-- The catch block of lines 100-106: a 500 response whose body carries
`error.message`, plus `error.stack` under `details` exactly when
`NODE_ENV === 'development'` (an `undefined` property is dropped by
`res.json`). -/
def errorResponse (env : Env) (e : JsError) : Response :=
  ⟨500, Json.obj (("error", Json.str e.message) ::
    (if env.nodeEnv = some "development" then [("details", Json.str e.stack)] else []))⟩

/-- The 400 response of lines 72-74. -/
def badRequestResponse : Response :=
  ⟨400, Json.obj [("error", Json.str "Query is required")]⟩

/-- Embedding of the POST `/` handler (lines 67-107).  Takes the
environment, the driver behaviour, the current module-level `pool` and the
parsed request body (`none` = `req.body` is `undefined`); returns the
response, the new `pool` state, and the driver events performed, in
program order. -/
def handlePost (env : Env) (drv : Driver) (pool0 : Option Pool) (body : Option Json) :
    Response × Option Pool × List Event :=
  match destructureBody body with
  | Except.error e => (errorResponse env e, pool0, [])
  | Except.ok (query, parameters) =>
    if falsy query then
      (badRequestResponse, pool0, [])
    else
      match ensurePool drv pool0 with
      | (Except.error e, pool1, evs1) => (errorResponse env e, pool1, evs1)
      | (Except.ok p, pool1, evs1) =>
        match query with
        | some (Json.str qs) =>
          match jsEntries parameters with
          | Except.error e => (errorResponse env e, pool1, evs1)
          | Except.ok params =>
            match drv.execQuery p qs params with
            | Except.ok recordset =>
              (⟨200, Json.arr (recordset.map Json.obj)⟩, pool1,
               evs1 ++ [Event.queryExec p qs params])
            | Except.error e =>
              (errorResponse env e, pool1, evs1 ++ [Event.queryExec p qs params])
        | _ => (errorResponse env substringError, pool1, evs1)

/-- The value of the `connected` field of the two GET endpoints:
`pool && pool.connected` evaluates to `null` when `pool` is `null`
(JavaScript `&&` returns the first falsy operand), and to the boolean
`pool.connected` otherwise. -/
def connectedVal : Option Pool → Json
  | none => Json.null
  | some p => Json.bool p.connected

/-- Embedding of the GET `/health` handler (lines 48-54). -/
def handleHealth (pool : Option Pool) : Response :=
  ⟨200, Json.obj [("status", Json.str "ok"), ("service", Json.str "mssql-bridge"),
    ("connected", connectedVal pool)]⟩

/-- Embedding of the GET `/` handler (lines 57-64). -/
def handleRoot (pool : Option Pool) : Response :=
  ⟨200, Json.obj [("status", Json.str "ok"), ("service", Json.str "mssql-bridge"),
    ("message", Json.str "MSSQL Bridge is running"), ("connected", connectedVal pool)]⟩

/-- Embedding of the SIGTERM handler (lines 110-116): `if (pool) { await
pool.close(); } process.exit(0);`.  Returns `some code` when
`process.exit(code)` is reached, `none` when the un-caught rejection of
`pool.close()` escapes the async callback, plus the events performed. -/
def handleSigterm (drv : Driver) (pool : Option Pool) : Option Nat × List Event :=
  match pool with
  | none => (some 0, [])
  | some p =>
    match drv.close p with
    | Except.ok _ => (some 0, [Event.close p])
    | Except.error _ => (none, [Event.close p])

/-- Embedding of the `app.listen` startup callback (lines 119-126): calls
`initializePool` inside try/catch, logging and swallowing any failure, so
the callback always completes and only the pool state and events remain. -/
def startup (drv : Driver) (pool : Option Pool) : Option Pool × List Event :=
  match initializePool drv pool with
  | (_, pool1, evs) => (pool1, evs)

/-- Helper: whether a JSON value is an object carrying field `k`. -/
def hasField (j : Json) (k : String) : Bool :=
  (getField j k).isSome

/-! ### Concrete fixtures used by witnesses and counterexamples -/

/-- A well-behaved driver: connect succeeds with a connected pool, every
query returns the single row `[{"x":1}]`, close succeeds. -/
def drvW : Driver :=
  ⟨Except.ok ⟨1, true⟩,
   fun _ _ _ => Except.ok [[("x", Json.num 1)]],
   fun _ => Except.ok ()⟩

/-- A driver whose connect is rejected. -/
def drvConnFail : Driver :=
  ⟨Except.error ⟨"Login failed", "stack-conn"⟩,
   fun _ _ _ => Except.error ⟨"Login failed", "stack-conn"⟩,
   fun _ => Except.ok ()⟩

/-- A driver that connects but rejects every query execution. -/
def drvQueryFail : Driver :=
  ⟨Except.ok ⟨1, true⟩,
   fun _ _ _ => Except.error ⟨"Invalid object name", "stack-query"⟩,
   fun _ => Except.ok ()⟩

/-- A driver whose `pool.close()` call is rejected. -/
def drvCloseFail : Driver :=
  ⟨Except.ok ⟨1, true⟩,
   fun _ _ _ => Except.ok [],
   fun _ => Except.error ⟨"close failed", "stack-close"⟩⟩

/-- A well-formed request body with a query and one named parameter. -/
def bodyW : Json :=
  Json.obj [("query", Json.str "SELECT 1 AS x"), ("parameters", Json.obj [("id", Json.num 5)])]

/-! ### Structural lemmas about the embedded handlers -/

/-- A `query` property read can only succeed on an object body. -/
lemma getField_eq_some_obj {j : Json} {k : String} {v : Json}
    (h : getField j k = some v) : ∃ fields, j = Json.obj fields := by
  cases j <;> simp [getField] at h ⊢

/-- Destructuring a non-null body succeeds and reads the two properties. -/
lemma destructureBody_some (j : Json) (h : j ≠ Json.null) :
    destructureBody (some j) =
      Except.ok (getField j "query", (getField j "parameters").getD (Json.obj [])) := by
  cases j with
  | null => exact absurd rfl h
  | bool b => rfl
  | num n => rfl
  | str s => rfl
  | arr elems => rfl
  | obj fields => rfl

/-- A missing or empty-string query value is falsy. -/
lemma falsy_of_missing_or_empty {q : Option Json}
    (h : q = none ∨ q = some (Json.str "")) : falsy q = true := by
  rcases h with h | h <;> subst h <;> rfl

/-- A nonempty query string is truthy. -/
lemma falsy_str_false {s : String} (h : s ≠ "") : falsy (some (Json.str s)) = false := by
  simp [falsy, h]

/-- When `ensurePool` hands back a pool, the module-level reference now
holds exactly that pool, and the pool is either the reused connected one
or the one the driver's connect produced; at most one connect attempt was
made and the pool is never closed along the way. -/
lemma ensurePool_ok {drv : Driver} {pool0 : Option Pool} {p : Pool}
    {pool1 : Option Pool} {evs : List Event}
    (h : ensurePool drv pool0 = (Except.ok p, pool1, evs)) :
    pool1 = some p ∧ (p.connected = true ∨ drv.connect = Except.ok p) ∧
      (evs = [] ∨ evs = [Event.connectAttempt]) := by
  cases pool0 with
  | none =>
    simp only [ensurePool, initializePool] at h
    cases hc : drv.connect with
    | ok q => rw [hc] at h; injection h with h1 h2; injection h1 with h3
              cases h3; injection h2 with h4 h5; exact ⟨h4.symm, Or.inr rfl, Or.inr h5.symm⟩
    | error e => rw [hc] at h; exact absurd h (by simp)
  | some p0 =>
    by_cases hp : p0.connected
    · simp only [ensurePool, hp, if_true] at h
      injection h with h1 h2; injection h1 with h3
      cases h3; injection h2 with h4 h5
      exact ⟨h4.symm, Or.inl hp, Or.inl h5.symm⟩
    · simp only [ensurePool, hp, if_false, initializePool] at h
      cases hc : drv.connect with
      | ok q => rw [hc] at h; injection h with h1 h2; injection h1 with h3
                cases h3; injection h2 with h4 h5; exact ⟨h4.symm, Or.inr rfl, Or.inr h5.symm⟩
      | error e => rw [hc] at h; exact absurd h (by simp)

/-! ### Claim theorems -/

/-- C2: a POST `/` whose body has a missing or empty `query` field gets a
400 response whose body carries an `error` field, the module-level pool
reference is returned unchanged, and no driver event (pool initialization
or query execution) is performed. -/
theorem c2_missing_query (env : Env) (drv : Driver) (pool0 : Option Pool) (j : Json)
    (hnull : j ≠ Json.null)
    (hq : getField j "query" = none ∨ getField j "query" = some (Json.str "")) :
    handlePost env drv pool0 (some j) = (badRequestResponse, pool0, []) ∧
    badRequestResponse.status = 400 ∧ hasField badRequestResponse.body "error" = true := by
  refine ⟨?_, rfl, rfl⟩
  simp [handlePost, destructureBody_some j hnull, falsy_of_missing_or_empty hq]

/-- C2 witness: a body that is an object with no `query` field. -/
theorem c2_missing_query_witness :
    handlePost ⟨none⟩ drvW none (some (Json.obj [])) = (badRequestResponse, none, []) ∧
    badRequestResponse.status = 400 ∧ hasField badRequestResponse.body "error" = true :=
  c2_missing_query ⟨none⟩ drvW none (Json.obj []) (fun h => Json.noConfusion h) (Or.inl rfl)

/-- C4: before executing a query, if no pool exists or the held pool
reports disconnected, the handler calls `initializePool`, and when the
driver's connect succeeds the new pool replaces the process-wide
reference; otherwise the existing connected pool is reused unchanged. -/
theorem c4_ensure_pool (drv : Driver) (pool0 : Option Pool) :
    ((pool0 = none ∨ ∃ p, pool0 = some p ∧ p.connected = false) →
       ensurePool drv pool0 = initializePool drv pool0 ∧
       ∀ q, drv.connect = Except.ok q →
         ensurePool drv pool0 = (Except.ok q, some q, [Event.connectAttempt])) ∧
    (∀ p, pool0 = some p → p.connected = true →
       ensurePool drv pool0 = (Except.ok p, some p, [])) := by
  constructor
  · intro h
    have he : ensurePool drv pool0 = initializePool drv pool0 := by
      rcases h with h | ⟨p, hp, hc⟩
      · subst h; rfl
      · subst hp; simp [ensurePool, hc]
    refine ⟨he, fun q hq => ?_⟩
    rw [he]; simp [initializePool, hq]
  · rintro p rfl hp
    simp [ensurePool, hp]

/-- C4 witness: a fresh connect at an empty pool reference, and reuse of a
connected pool. -/
theorem c4_ensure_pool_witness :
    ensurePool drvW none = (Except.ok ⟨1, true⟩, some ⟨1, true⟩, [Event.connectAttempt]) ∧
    ensurePool drvW (some ⟨2, true⟩) = (Except.ok ⟨2, true⟩, some ⟨2, true⟩, []) :=
  ⟨((c4_ensure_pool drvW none).1 (Or.inl rfl)).2 ⟨1, true⟩ rfl,
   (c4_ensure_pool drvW (some ⟨2, true⟩)).2 ⟨2, true⟩ rfl rfl⟩

/-- A body with a query and no `parameters` property. -/
def bodyNoParams : Json := Json.obj [("query", Json.str "SELECT 1 AS x")]

/-- C1: when the body destructures to a truthy string query, the pool is
available, the parameter entries are readable and the driver accepts the
query, the handler answers 200 with exactly the driver's record list as a
top-level JSON array (no wrapping object). -/
theorem c1_valid_query_response (env : Env) (drv : Driver) (pool0 : Option Pool) (j : Json)
    (qs : String) (ps : List (String × Json)) (rows : List Row) (p : Pool)
    (pool1 : Option Pool) (evs1 : List Event)
    (h1 : getField j "query" = some (Json.str qs)) (h2 : qs ≠ "")
    (h3 : jsEntries ((getField j "parameters").getD (Json.obj [])) = Except.ok ps)
    (h4 : ensurePool drv pool0 = (Except.ok p, pool1, evs1))
    (h5 : drv.execQuery p qs ps = Except.ok rows) :
    handlePost env drv pool0 (some j) =
      (⟨200, Json.arr (rows.map Json.obj)⟩, pool1, evs1 ++ [Event.queryExec p qs ps]) := by
  obtain ⟨fields, rfl⟩ := getField_eq_some_obj h1
  simp [handlePost, destructureBody_some (Json.obj fields) (by intro hh; cases hh), h1,
        falsy_str_false h2, h3, h4, h5]

/-- C1 witness: `{"query": "SELECT 1 AS x", "parameters": {"id": 5}}`
against the well-behaved driver yields 200 with the bare row array. -/
theorem c1_valid_query_response_witness :
    handlePost ⟨none⟩ drvW none (some bodyW) =
      (⟨200, Json.arr [Json.obj [("x", Json.num 1)]]⟩, some ⟨1, true⟩,
       [Event.connectAttempt] ++
         [Event.queryExec ⟨1, true⟩ "SELECT 1 AS x" [("id", Json.num 5)]]) :=
  c1_valid_query_response ⟨none⟩ drvW none bodyW "SELECT 1 AS x" [("id", Json.num 5)]
    [[("x", Json.num 1)]] ⟨1, true⟩ (some ⟨1, true⟩) [Event.connectAttempt]
    rfl (by decide) rfl rfl rfl

/-- C3 counterexample: with `NODE_ENV = "test"` — a non-production
configuration — a failing pool acquisition produces a 500 response with no
`details` field, refuting "details present iff non-production". -/
theorem c3_counterexample :
    (⟨some "test"⟩ : Env).nodeEnv ≠ some "production" ∧
    (handlePost ⟨some "test"⟩ drvConnFail none (some bodyW)).1.status = 500 ∧
    hasField (handlePost ⟨some "test"⟩ drvConnFail none (some bodyW)).1.body "details" = false :=
  ⟨by decide, rfl, rfl⟩

/-- C3 (amended): any exception during pool acquisition or query execution
yields a 500 response whose `error` field is the exception's message, and
the `details` (stack) field is present if and only if
`NODE_ENV = "development"`. -/
theorem c3_exception_response (env : Env) (drv : Driver) (pool0 : Option Pool) (j : Json)
    (qs : String) (e : JsError)
    (h1 : getField j "query" = some (Json.str qs)) (h2 : qs ≠ "")
    (hex : (∃ pool1 evs1, ensurePool drv pool0 = (Except.error e, pool1, evs1)) ∨
           (∃ p pool1 evs1 ps, ensurePool drv pool0 = (Except.ok p, pool1, evs1) ∧
              jsEntries ((getField j "parameters").getD (Json.obj [])) = Except.ok ps ∧
              drv.execQuery p qs ps = Except.error e)) :
    (handlePost env drv pool0 (some j)).1 = errorResponse env e ∧
    (errorResponse env e).status = 500 ∧
    getField (errorResponse env e).body "error" = some (Json.str e.message) ∧
    (hasField (errorResponse env e).body "details" = true ↔ env.nodeEnv = some "development") := by
  obtain ⟨fields, rfl⟩ := getField_eq_some_obj h1
  refine ⟨?_, rfl, ?_, ?_⟩
  · rcases hex with ⟨pool1, evs1, hpool⟩ | ⟨p, pool1, evs1, ps, hpool, hps, hq⟩
    · simp [handlePost, destructureBody_some (Json.obj fields) (by intro hh; cases hh), h1,
            falsy_str_false h2, hpool]
    · simp [handlePost, destructureBody_some (Json.obj fields) (by intro hh; cases hh), h1,
            falsy_str_false h2, hpool, hps, hq]
  · by_cases hd : env.nodeEnv = some "development" <;> simp [errorResponse, getField, hd]
  · by_cases hd : env.nodeEnv = some "development" <;>
      simp [errorResponse, hasField, getField, hd]

/-- C3 witness: a failing query execution in development mode carries the
message and the stack under `details`. -/
theorem c3_exception_response_witness :
    (handlePost ⟨some "development"⟩ drvQueryFail none (some bodyW)).1 =
      errorResponse ⟨some "development"⟩ ⟨"Invalid object name", "stack-query"⟩ ∧
    (errorResponse ⟨some "development"⟩ ⟨"Invalid object name", "stack-query"⟩).status = 500 ∧
    getField (errorResponse ⟨some "development"⟩ ⟨"Invalid object name", "stack-query"⟩).body
        "error" = some (Json.str "Invalid object name") ∧
    (hasField (errorResponse ⟨some "development"⟩ ⟨"Invalid object name", "stack-query"⟩).body
        "details" = true ↔ (⟨some "development"⟩ : Env).nodeEnv = some "development") :=
  c3_exception_response ⟨some "development"⟩ drvQueryFail none bodyW "SELECT 1 AS x"
    ⟨"Invalid object name", "stack-query"⟩ rfl (by decide)
    (Or.inr ⟨⟨1, true⟩, some ⟨1, true⟩, [Event.connectAttempt], [("id", Json.num 5)],
      rfl, rfl, rfl⟩)

/-- C6: when the driver's connect is rejected, the startup callback
swallows the failure, leaving the pool reference empty, and the next
POST `/` with a valid query retries pool creation (a connect attempt is
among its driver events). -/
theorem c6_startup_failure_swallowed (drv : Driver) (e : JsError)
    (h : drv.connect = Except.error e) :
    startup drv none = (none, [Event.connectAttempt]) ∧
    ∀ env j qs, getField j "query" = some (Json.str qs) → qs ≠ "" →
      Event.connectAttempt ∈ (handlePost env drv (startup drv none).1 (some j)).2.2 := by
  have hs : startup drv none = (none, [Event.connectAttempt]) := by
    simp [startup, initializePool, h]
  refine ⟨hs, fun env j qs h1 h2 => ?_⟩
  rw [hs]
  obtain ⟨fields, rfl⟩ := getField_eq_some_obj h1
  simp [handlePost, destructureBody_some (Json.obj fields) (by intro hh; cases hh), h1,
        falsy_str_false h2, ensurePool, initializePool, h]

/-- C6 witness: failed startup with the rejecting driver, then a retry on
the next request. -/
theorem c6_startup_failure_swallowed_witness :
    startup drvConnFail none = (none, [Event.connectAttempt]) ∧
    Event.connectAttempt ∈
      (handlePost ⟨none⟩ drvConnFail (startup drvConnFail none).1 (some bodyW)).2.2 :=
  ⟨(c6_startup_failure_swallowed drvConnFail ⟨"Login failed", "stack-conn"⟩ rfl).1,
   (c6_startup_failure_swallowed drvConnFail ⟨"Login failed", "stack-conn"⟩ rfl).2
     ⟨none⟩ bodyW "SELECT 1 AS x" rfl (by decide)⟩

/-- C7: the parameter entries of an object-valued `parameters` field are
passed to the driver verbatim, bound by name, with the query text passed
unmodified; an absent `parameters` field defaults to the empty mapping and
no parameter is bound. -/
theorem c7_parameters_verbatim (env : Env) (drv : Driver) (pool0 : Option Pool) (j : Json)
    (qs : String) (p : Pool) (pool1 : Option Pool) (evs1 : List Event)
    (h1 : getField j "query" = some (Json.str qs)) (h2 : qs ≠ "")
    (h4 : ensurePool drv pool0 = (Except.ok p, pool1, evs1)) :
    (∀ ps, getField j "parameters" = some (Json.obj ps) →
       (handlePost env drv pool0 (some j)).2.2 = evs1 ++ [Event.queryExec p qs ps]) ∧
    (getField j "parameters" = none →
       (handlePost env drv pool0 (some j)).2.2 = evs1 ++ [Event.queryExec p qs []]) := by
  obtain ⟨fields, rfl⟩ := getField_eq_some_obj h1
  constructor
  · intro ps hps
    cases hq : drv.execQuery p qs ps <;>
      simp [handlePost, destructureBody_some (Json.obj fields) (by intro hh; cases hh), h1, hps,
            falsy_str_false h2, h4, jsEntries, hq]
  · intro hps
    cases hq : drv.execQuery p qs [] <;>
      simp [handlePost, destructureBody_some (Json.obj fields) (by intro hh; cases hh), h1, hps,
            falsy_str_false h2, h4, jsEntries, hq]

/-- C7 witness: `{"id": 5}` reaches the driver verbatim, and the body with
no `parameters` field binds nothing. -/
theorem c7_parameters_verbatim_witness :
    (handlePost ⟨none⟩ drvW none (some bodyW)).2.2 =
      [Event.connectAttempt] ++
        [Event.queryExec ⟨1, true⟩ "SELECT 1 AS x" [("id", Json.num 5)]] ∧
    (handlePost ⟨none⟩ drvW none (some bodyNoParams)).2.2 =
      [Event.connectAttempt] ++ [Event.queryExec ⟨1, true⟩ "SELECT 1 AS x" []] :=
  ⟨(c7_parameters_verbatim ⟨none⟩ drvW none bodyW "SELECT 1 AS x" ⟨1, true⟩
      (some ⟨1, true⟩) [Event.connectAttempt] rfl (by decide) rfl).1
      [("id", Json.num 5)] rfl,
   (c7_parameters_verbatim ⟨none⟩ drvW none bodyNoParams "SELECT 1 AS x" ⟨1, true⟩
      (some ⟨1, true⟩) [Event.connectAttempt] rfl (by decide) rfl).2 rfl⟩

/-- C9: when the pool step produced a pool and the query execution then
throws, the handler answers with the 500 error response while the
module-level reference keeps the pool from this request — it is neither
reset nor closed. -/
theorem c9_error_branch_frame (env : Env) (drv : Driver) (pool0 : Option Pool) (j : Json)
    (qs : String) (ps : List (String × Json)) (p : Pool) (pool1 : Option Pool)
    (evs1 : List Event) (e : JsError)
    (h1 : getField j "query" = some (Json.str qs)) (h2 : qs ≠ "")
    (h4 : ensurePool drv pool0 = (Except.ok p, pool1, evs1))
    (h3 : jsEntries ((getField j "parameters").getD (Json.obj [])) = Except.ok ps)
    (h5 : drv.execQuery p qs ps = Except.error e) :
    handlePost env drv pool0 (some j) =
      (errorResponse env e, some p, evs1 ++ [Event.queryExec p qs ps]) ∧
    (errorResponse env e).status = 500 ∧
    (∀ q, Event.close q ∉ (handlePost env drv pool0 (some j)).2.2) := by
  obtain ⟨hp1, _, hevs⟩ := ensurePool_ok h4
  obtain ⟨fields, rfl⟩ := getField_eq_some_obj h1
  have hmain : handlePost env drv pool0 (some (Json.obj fields)) =
      (errorResponse env e, pool1, evs1 ++ [Event.queryExec p qs ps]) := by
    simp [handlePost, destructureBody_some (Json.obj fields) (by intro hh; cases hh), h1,
          falsy_str_false h2, h4, h3, h5]
  refine ⟨by rw [hmain, hp1], rfl, fun q => ?_⟩
  rw [hmain]
  rcases hevs with h | h <;> subst h <;> simp

/-- C9 witness: a failing query after a fresh connect keeps the new pool
and closes nothing. -/
theorem c9_error_branch_frame_witness :
    handlePost ⟨none⟩ drvQueryFail none (some bodyW) =
      (errorResponse ⟨none⟩ ⟨"Invalid object name", "stack-query"⟩, some ⟨1, true⟩,
        [Event.connectAttempt] ++
          [Event.queryExec ⟨1, true⟩ "SELECT 1 AS x" [("id", Json.num 5)]]) ∧
    Event.close ⟨1, true⟩ ∉ (handlePost ⟨none⟩ drvQueryFail none (some bodyW)).2.2 :=
  ⟨(c9_error_branch_frame ⟨none⟩ drvQueryFail none bodyW "SELECT 1 AS x"
      [("id", Json.num 5)] ⟨1, true⟩ (some ⟨1, true⟩) [Event.connectAttempt]
      ⟨"Invalid object name", "stack-query"⟩ rfl (by decide) rfl rfl rfl).1,
   (c9_error_branch_frame ⟨none⟩ drvQueryFail none bodyW "SELECT 1 AS x"
      [("id", Json.num 5)] ⟨1, true⟩ (some ⟨1, true⟩) [Event.connectAttempt]
      ⟨"Invalid object name", "stack-query"⟩ rfl (by decide) rfl rfl rfl).2.2 ⟨1, true⟩⟩

/-- Componentwise reading of an equality of triples. -/
lemma triple_eq {α β γ : Type _} {a x : α} {b y : β} {c z : γ}
    (h : (a, b, c) = (x, y, z)) : a = x ∧ b = y ∧ c = z := by
  injection h with h1 h2
  injection h2 with h3 h4
  exact ⟨h1, h3, h4⟩

/-- The error body always carries the `error` field. -/
lemma errorResponse_error_field (env : Env) (e : JsError) :
    hasField (errorResponse env e).body "error" = true := by
  by_cases hd : env.nodeEnv = some "development" <;>
    simp [errorResponse, hasField, getField, hd]

/-- A 200 response can only come out of the success branch, so the
returned pool reference holds the pool used, which is either the reused
connected pool or the one the driver's connect handed over. -/
lemma handlePost_200_pool {env : Env} {drv : Driver} {pool0 : Option Pool}
    {body : Option Json} {r : Response} {pool1 : Option Pool} {evs : List Event}
    (h : handlePost env drv pool0 body = (r, pool1, evs)) (h200 : r.status = 200) :
    ∃ p, pool1 = some p ∧ (p.connected = true ∨ drv.connect = Except.ok p) := by
  simp only [handlePost] at h
  split at h
  · obtain ⟨h1, h2, h3⟩ := triple_eq h
    subst h1; simp [errorResponse] at h200
  · split at h
    · obtain ⟨h1, h2, h3⟩ := triple_eq h
      subst h1; simp [badRequestResponse] at h200
    · split at h
      · obtain ⟨h1, h2, h3⟩ := triple_eq h
        subst h1; simp [errorResponse] at h200
      · rename_i p pool1' evs1 heq
        obtain ⟨hp1, hrest, _⟩ := ensurePool_ok heq
        split at h
        · split at h
          · obtain ⟨h1, h2, h3⟩ := triple_eq h
            subst h1; simp [errorResponse] at h200
          · split at h
            · obtain ⟨h1, h2, h3⟩ := triple_eq h
              exact ⟨p, h2 ▸ hp1, hrest⟩
            · obtain ⟨h1, h2, h3⟩ := triple_eq h
              subst h1; simp [errorResponse] at h200
        · obtain ⟨h1, h2, h3⟩ := triple_eq h
          subst h1; simp [errorResponse] at h200

/-- Every run of the handler ends in one of three response shapes: the
catch-block error response, the bad-request response, or a 200 carrying a
record array. -/
lemma handlePost_shape (env : Env) (drv : Driver) (pool0 : Option Pool)
    (body : Option Json) :
    (∃ e, (handlePost env drv pool0 body).1 = errorResponse env e) ∨
    (handlePost env drv pool0 body).1 = badRequestResponse ∨
    (∃ rows : List Row,
       (handlePost env drv pool0 body).1 = ⟨200, Json.arr (List.map Json.obj rows)⟩) := by
  simp only [handlePost]
  split
  · exact Or.inl ⟨_, rfl⟩
  · split
    · exact Or.inr (Or.inl rfl)
    · split
      · exact Or.inl ⟨_, rfl⟩
      · split
        · split
          · exact Or.inl ⟨_, rfl⟩
          · split
            · exact Or.inr (Or.inr ⟨_, rfl⟩)
            · exact Or.inl ⟨_, rfl⟩
        · exact Or.inl ⟨_, rfl⟩

/-- C5 counterexample: before any connection the `/health` response's
`connected` field is the JSON `null` produced by `pool && pool.connected`,
not the boolean `false` the claim states. -/
theorem c5_counterexample :
    getField (handleHealth none).body "connected" = some Json.null ∧
    getField (handleHealth none).body "connected" ≠ some (Json.bool false) := by
  refine ⟨rfl, fun h => ?_⟩
  rw [show getField (handleHealth none).body "connected" = some Json.null from rfl] at h
  injection h with h2
  cases h2

/-- C5 (amended): before any successful pool connection `/health` reports
`connected: null` (a falsy value, not the boolean `false`); after any
request that got a 200 — given that the driver's connect only hands over
connected pools — `/health` on the resulting state reports
`connected: true`. -/
theorem c5_health_connected (drv : Driver)
    (hdrv : ∀ q, drv.connect = Except.ok q → q.connected = true) :
    getField (handleHealth none).body "connected" = some Json.null ∧
    (∀ env pool0 body r pool1 evs,
       handlePost env drv pool0 body = (r, pool1, evs) → r.status = 200 →
       getField (handleHealth pool1).body "connected" = some (Json.bool true)) := by
  refine ⟨rfl, fun env pool0 body r pool1 evs h h200 => ?_⟩
  obtain ⟨p, rfl, hc⟩ := handlePost_200_pool h h200
  have hpc : p.connected = true := by
    rcases hc with hc | hc
    · exact hc
    · exact hdrv p hc
  have hb : handleHealth (some p) =
      ⟨200, Json.obj [("status", Json.str "ok"), ("service", Json.str "mssql-bridge"),
        ("connected", Json.bool true)]⟩ := by
    simp [handleHealth, connectedVal, hpc]
  rw [hb]
  rfl

/-- C5 witness: the empty state reports `null`; after a successful query
through the well-behaved driver, `/health` reports `true`. -/
theorem c5_health_connected_witness :
    getField (handleHealth none).body "connected" = some Json.null ∧
    getField (handleHealth (handlePost ⟨none⟩ drvW none (some bodyW)).2.1).body
      "connected" = some (Json.bool true) :=
  ⟨(c5_health_connected drvW (fun q hq => by injection hq with h; rw [← h])).1,
   (c5_health_connected drvW (fun q hq => by injection hq with h; rw [← h])).2
     ⟨none⟩ none (some bodyW) _ _ _ rfl rfl⟩

/-- C8 counterexample: with a pool open and a driver whose `close` call is
rejected, the rejection escapes the async SIGTERM callback and
`process.exit(0)` is never reached. -/
theorem c8_counterexample :
    handleSigterm drvCloseFail (some ⟨1, true⟩) = (none, [Event.close ⟨1, true⟩]) ∧
    (handleSigterm drvCloseFail (some ⟨1, true⟩)).1 ≠ some 0 :=
  ⟨rfl, fun h => Option.noConfusion h⟩

/-- C8 (amended): on SIGTERM, with no pool open the process exits with
code 0 without attempting a close; with a pool open whose close succeeds
it closes the pool and exits with code 0; if the close throws, the
rejection escapes and `process.exit(0)` is not reached. -/
theorem c8_sigterm (drv : Driver) (pool0 : Option Pool) :
    (pool0 = none → handleSigterm drv pool0 = (some 0, [])) ∧
    (∀ p, pool0 = some p → drv.close p = Except.ok () →
       handleSigterm drv pool0 = (some 0, [Event.close p])) ∧
    (∀ p e, pool0 = some p → drv.close p = Except.error e →
       handleSigterm drv pool0 = (none, [Event.close p])) := by
  refine ⟨fun h => by subst h; rfl, fun p hp hc => ?_, fun p e hp hc => ?_⟩
  · subst hp; simp [handleSigterm, hc]
  · subst hp; simp [handleSigterm, hc]

/-- C8 witness: idle exit without a pool, a clean close-and-exit, and the
escaping close failure. -/
theorem c8_sigterm_witness :
    handleSigterm drvW none = (some 0, []) ∧
    handleSigterm drvW (some ⟨1, true⟩) = (some 0, [Event.close ⟨1, true⟩]) ∧
    handleSigterm drvCloseFail (some ⟨1, true⟩) = (none, [Event.close ⟨1, true⟩]) :=
  ⟨(c8_sigterm drvW none).1 rfl,
   (c8_sigterm drvW (some ⟨1, true⟩)).2.1 ⟨1, true⟩ rfl rfl,
   (c8_sigterm drvCloseFail (some ⟨1, true⟩)).2.2 ⟨1, true⟩
     ⟨"close failed", "stack-close"⟩ rfl rfl⟩

/-- C10 counterexample: a body that is the JSON number 5 — not a JSON
object — destructures without throwing, so the request gets a 400, not
the 500 the claim states for any non-object body. -/
theorem c10_counterexample :
    (handlePost ⟨none⟩ drvW none (some (Json.num 5))).1.status = 400 ∧
    (handlePost ⟨none⟩ drvW none (some (Json.num 5))).1.status ≠ 500 :=
  ⟨rfl, by decide⟩

/-- C10 (amended): the handler is total — every run produces a 200, 400
or 500 response, and every non-200 response body carries an `error` field;
a body that is absent or JSON `null` throws at destructuring and yields
the 500 error response, while non-null non-object bodies destructure to an
undefined query and fall into the 400 branch. -/
theorem c10_handler_total (env : Env) (drv : Driver) (pool0 : Option Pool)
    (body : Option Json) :
    ((handlePost env drv pool0 body).1.status = 200 ∨
     (handlePost env drv pool0 body).1.status = 400 ∨
     (handlePost env drv pool0 body).1.status = 500) ∧
    ((handlePost env drv pool0 body).1.status ≠ 200 →
       hasField (handlePost env drv pool0 body).1.body "error" = true) ∧
    ((body = none ∨ body = some Json.null) →
       (handlePost env drv pool0 body).1 = errorResponse env destructureError) := by
  have h3 : (body = none ∨ body = some Json.null) →
      (handlePost env drv pool0 body).1 = errorResponse env destructureError := by
    rintro (rfl | rfl) <;> rfl
  refine ⟨?_, ?_, h3⟩
  · rcases handlePost_shape env drv pool0 body with ⟨e, he⟩ | he | ⟨rows, he⟩ <;> rw [he]
    · exact Or.inr (Or.inr rfl)
    · exact Or.inr (Or.inl rfl)
    · exact Or.inl rfl
  · rcases handlePost_shape env drv pool0 body with ⟨e, he⟩ | he | ⟨rows, he⟩ <;> rw [he]
    · intro _; exact errorResponse_error_field env e
    · intro _; rfl
    · intro hne; exact absurd rfl hne

/-- C10 witness: an absent body is caught at destructuring and yields the
500 error response. -/
theorem c10_handler_total_witness :
    ((handlePost ⟨none⟩ drvW none none).1.status = 200 ∨
     (handlePost ⟨none⟩ drvW none none).1.status = 400 ∨
     (handlePost ⟨none⟩ drvW none none).1.status = 500) ∧
    (handlePost ⟨none⟩ drvW none none).1 = errorResponse ⟨none⟩ destructureError :=
  ⟨(c10_handler_total ⟨none⟩ drvW none none).1,
   (c10_handler_total ⟨none⟩ drvW none none).2.2 (Or.inl rfl)⟩

end MssqlBridge
